import Mathlib

/-!
Verification of the PDF text-editor subsystem: a shallow embedding of the
positioned-text model, the extraction pipeline, the export compositing
engine, navigation, zoom, file-drop validation and the coordinate
transform, with theorems settling the specified properties.

Numeric values (coordinates, sizes, scales) are modelled over the rational
numbers; the source performs the corresponding arithmetic on IEEE doubles,
and each law proved exactly over the rationals holds within floating-point
tolerance in the source.
-/

namespace PdfEdit

/-- RGB color triple as stored on a text run (0 to 255 channels at
extraction time; the export path rescales into the 0 to 1 range). -/
structure Color where
  r : ℚ
  g : ℚ
  b : ℚ
deriving DecidableEq, Repr

/-- One extracted text run, embedding the TextItem record of the source:
id, text, geometry in page points with a top-left origin, font data,
color, rotation tag, owning page index and the owning page size. -/
structure TextItem where
  id : String
  text : String
  x : ℚ
  y : ℚ
  width : ℚ
  height : ℚ
  fontSize : ℚ
  fontName : String
  color : Color
  rotation : ℚ
  pageIndex : Nat
  pageWidth : ℚ
  pageHeight : ℚ
deriving DecidableEq, Repr

/-- Error taxonomy of the specification relevant to the claims settled
here: unknown-id text update and out-of-range page navigation. -/
inductive EditorError
  | notFound
  | outOfRange
deriving DecidableEq, Repr

/-- Embedding of updateTextItem: map over the run list, replacing the
text of every run whose id matches and keeping every other run as is. -/
def updateTextItem (id newText : String) (items : List TextItem) : List TextItem :=
  items.map (fun item => if item.id = id then { item with text := newText } else item)

/-- Modelled from the spec: update(id, newText) replaces text in place and
fails with NotFound when the id is unknown. The source updateTextItem has
no failure path at all, so this definition follows the words of the spec
for comparison against the source embedding. -/
def updateTextItemSpec (id newText : String) (items : List TextItem) :
    Except EditorError (List TextItem) :=
  if items.any (fun t => decide (t.id = id)) then
    Except.ok (items.map (fun item => if item.id = id then { item with text := newText } else item))
  else
    Except.error EditorError.notFound

/-- The 6-entry text placement matrix [a, b, c, d, e, f] of a native
positioned-text item: a and d carry the scale, e and f the translation. -/
structure PlacementMatrix where
  a : ℚ
  b : ℚ
  c : ℚ
  d : ℚ
  e : ℚ
  f : ℚ
deriving DecidableEq, Repr

/-- The color field of a native item as the source inspects it: either an
array of 0 to 1 channels (with the second and third possibly absent) or an
already-structured object color. -/
inductive NativeColor
  | arr (c0 : ℚ) (c1 c2 : Option ℚ)
  | obj (c : Color)
deriving DecidableEq, Repr

/-- One native positioned-text item surfaced by the external parser, with
the optional fields the source tests for truthiness. -/
structure NativeTextItem where
  str : String
  transform : Option PlacementMatrix
  width : Option ℚ
  height : Option ℚ
  fontName : Option String
  color : Option NativeColor
deriving DecidableEq, Repr

/-- JavaScript-style numeric defaulting: an absent or zero value falls
through to the alternative, a present nonzero value is kept. -/
def jsOr (v : Option ℚ) (dflt : ℚ) : ℚ :=
  match v with
  | some q => if q = 0 then dflt else q
  | none => dflt

/-- JavaScript-style string defaulting: absent or empty falls through. -/
def jsOrStr (v : Option String) (dflt : String) : String :=
  match v with
  | some s => if s = "" then dflt else s
  | none => dflt

/-- JavaScript Math.round on a rational: floor of the value plus one half. -/
def jsRound (q : ℚ) : ℚ := ((⌊q + 1/2⌋ : ℤ) : ℚ)

/-- Font size as the source computes it: the first nonzero among the
absolute a entry, the absolute d entry, the item height, then 12. -/
def jsFontSize (tr : PlacementMatrix) (h : Option ℚ) : ℚ :=
  jsOr (some |tr.a|) (jsOr (some |tr.d|) (jsOr h 12))

/-- Run color as the source computes it: default black, an array color
rescaled channelwise from 0 to 1 into 0 to 255 with rounding (missing
second and third channels read as 0), an object color kept as is. -/
def extractColor (c : Option NativeColor) : Color :=
  match c with
  | none => { r := 0, g := 0, b := 0 }
  | some (NativeColor.arr c0 c1 c2) =>
      { r := jsRound (c0 * 255),
        g := match c1 with | some v => jsRound (v * 255) | none => 0,
        b := match c2 with | some v => jsRound (v * 255) | none => 0 }
  | some (NativeColor.obj c) => c

/-- Embedding of the per-item body of extractTextFromPdf: items with an
empty string or no placement matrix are skipped (none); otherwise the run
is built with the heuristic fallbacks of the source and the vertical flip
into top-left origin. -/
def extractItem (pageNum idx : Nat) (viewportWidth viewportHeight : ℚ)
    (item : NativeTextItem) : Option TextItem :=
  if item.str = "" then none
  else
    match item.transform with
    | none => none
    | some tr =>
      let fontSize := jsFontSize tr item.height
      let width := jsOr item.width ((item.str.length : ℚ) * fontSize * (3/5))
      let height := jsOr item.height fontSize
      some {
        id := "text-" ++ toString pageNum ++ "-" ++ toString idx,
        text := item.str,
        x := tr.e,
        y := viewportHeight - tr.f,
        width := width,
        height := height,
        fontSize := fontSize,
        fontName := jsOrStr item.fontName "Helvetica",
        color := extractColor item.color,
        rotation := 0,
        pageIndex := pageNum - 1,
        pageWidth := viewportWidth,
        pageHeight := viewportHeight }

/-- Embedding of the per-page forEach of extractTextFromPdf: every native
item is visited with its position index (skipped items still consume
their index, as with a forEach callback) and the surviving runs are kept
in order. -/
def extractPage (pageNum : Nat) (viewportWidth viewportHeight : ℚ)
    (native : List NativeTextItem) : List TextItem :=
  native.enum.filterMap (fun p => extractItem pageNum p.1 viewportWidth viewportHeight p.2)

/-- One primitive drawing operation issued by the export path: an opaque
rectangle or a positioned text string, in the order of issue. -/
inductive DrawOp
  | rect (x y w h : ℚ) (color : Color)
  | text (s : String) (x y size : ℚ) (color : Color)
deriving DecidableEq, Repr

/-- Whether a drawing operation is a rectangle. -/
def isRectOp : DrawOp → Bool
  | DrawOp.rect _ _ _ _ _ => true
  | DrawOp.text _ _ _ _ _ => false

/-- Whether a drawing operation is a text draw. -/
def isTextOp : DrawOp → Bool
  | DrawOp.rect _ _ _ _ _ => false
  | DrawOp.text _ _ _ _ _ => true

/-- The string drawn by a text operation; empty for a rectangle. -/
def opText : DrawOp → String
  | DrawOp.rect _ _ _ _ _ => ""
  | DrawOp.text s _ _ _ _ => s

/-- Truthiness of the guard text.trim() in the export text pass: the
trimmed string is nonempty exactly when some character of the string is
not whitespace, embedded structurally over the character data so that it
evaluates. -/
def jsTrimTruthy (s : String) : Bool :=
  s.data.any (fun c => !c.isWhitespace)

/-- Clamp a rational into the closed interval from 0 to 1, as the export
path does for each color channel. -/
def clamp01 (q : ℚ) : ℚ := min 1 (max 0 q)

/-- Export-time color: each 0 to 255 channel divided by 255 and clamped
into 0 to 1. -/
def exportColor (c : Color) : Color :=
  { r := clamp01 (c.r / 255), g := clamp01 (c.g / 255), b := clamp01 (c.b / 255) }

/-- The white cover rectangle the export path draws over one run: the
bounding box flipped into bottom-left origin and inflated by a padding of
2 points on every side. -/
def coverRectOp (pageHeight : ℚ) (t : TextItem) : DrawOp :=
  DrawOp.rect (t.x - 2) (pageHeight - t.y - t.height - 2)
    (t.width + 2 * 2) (t.height + 2 * 2) { r := 1, g := 1, b := 1 }

/-- The text draw the export path issues for one run: the run text at the
original x and the flipped baseline, with the run font size and the
clamped color. -/
def drawTextOp (pageHeight : ℚ) (t : TextItem) : DrawOp :=
  DrawOp.text t.text t.x (pageHeight - t.y) t.fontSize (exportColor t.color)

/-- Embedding of the per-page body of exportPdf: first one cover
rectangle per run of the page, in run order, then one text draw per run
of the page whose trimmed text is nonempty, in run order. -/
def exportPageOps (pageIndex : Nat) (pageHeight : ℚ) (items : List TextItem) : List DrawOp :=
  let pageItems := items.filter (fun t => decide (t.pageIndex = pageIndex))
  pageItems.map (coverRectOp pageHeight) ++
    (pageItems.filter (fun t => jsTrimTruthy t.text)).map (drawTextOp pageHeight)

/-- The tool palette of the editor toolbar. -/
inductive AnnotTool
  | pointer
  | text
  | highlight
  | rectangle
  | circle
deriving DecidableEq, Repr

/-- The stored kind of a free-form mark. -/
inductive AnnotKind
  | draw
  | highlight
  | rectangle
  | circle
deriving DecidableEq, Repr

/-- One point of a mark path, exactly as the source stores it. -/
structure AnnotPoint where
  x : ℚ
  y : ℚ
deriving DecidableEq, Repr

/-- One free-form mark, embedding the Annotation record of the source:
id, kind, point path, stroke color and owning page index. -/
structure AnnotMark where
  id : String
  kind : AnnotKind
  path : List AnnotPoint
  color : String
  pageIndex : Nat
deriving DecidableEq, Repr

/-- The kind recorded for a selected tool: the text tool records a draw
mark, every other tool records its own kind (the pointer tool never
reaches this point because the start handler returns first). -/
def toolToKind : AnnotTool → AnnotKind
  | AnnotTool.pointer => AnnotKind.draw
  | AnnotTool.text => AnnotKind.draw
  | AnnotTool.highlight => AnnotKind.highlight
  | AnnotTool.rectangle => AnnotKind.rectangle
  | AnnotTool.circle => AnnotKind.circle

/-- Embedding of handleAnnotationStart: with the pointer tool nothing is
created; otherwise a draft mark is created whose first path point is the
client position minus the canvas bounding-rectangle corner, in raw canvas
pixels at the current render scale. -/
def handleAnnotStart (tool : AnnotTool) (clientX clientY rectLeft rectTop : ℚ)
    (nowMs : Nat) (currentPage : Nat) : Option AnnotMark :=
  if tool = AnnotTool.pointer then none
  else some {
    id := "annotation-" ++ toString nowMs,
    kind := toolToKind tool,
    path := [{ x := clientX - rectLeft, y := clientY - rectTop }],
    color := if tool = AnnotTool.highlight then "#ffff00" else "#ff0000",
    pageIndex := currentPage - 1 }

/-- Embedding of handleAnnotationMove: the client position minus the
bounding-rectangle corner is appended to the draft path, again in raw
canvas pixels. -/
def handleAnnotMove (cur : AnnotMark) (clientX clientY rectLeft rectTop : ℚ) : AnnotMark :=
  { cur with path := cur.path ++ [{ x := clientX - rectLeft, y := clientY - rectTop }] }

/-- Embedding of the Previous button handler: the page number decremented
and clamped below at 1. -/
def prevPage (cur : Nat) : Nat := max 1 (cur - 1)

/-- Embedding of the Next button handler: the page number incremented and
clamped above at the total page count. -/
def nextPage (total cur : Nat) : Nat := min total (cur + 1)

/-- The navigation outcome with an explicit error channel: the source
navigation handlers always succeed (they clamp), so the result is always
ok. -/
def nextPageResult (total cur : Nat) : Except EditorError Nat :=
  Except.ok (nextPage total cur)

/-- The page buttons the sidebar renders: exactly the numbers 1 up to the
total page count. -/
def sidebarPages (total : Nat) : List Nat :=
  (List.range total).map (fun i => i + 1)

/-- Modelled from the spec: goToPage(n) with a 0-based index fails with
OutOfRange when n lies outside the interval from 0 to pageCount
exclusive, and otherwise succeeds with the requested index. No such
operation exists in the source, which clamps instead; this definition
follows the words of the spec for comparison. -/
def goToPageSpec (pageCount : Nat) (n : Int) : Except EditorError Nat :=
  if 0 ≤ n ∧ n < pageCount then Except.ok n.toNat else Except.error EditorError.outOfRange

/-- Embedding of handleZoomIn: a quarter step up, clamped above at 3. -/
def handleZoomIn (prev : ℚ) : ℚ := min (prev + 1/4) 3

/-- Embedding of handleZoomOut: a quarter step down, clamped below at a
half. -/
def handleZoomOut (prev : ℚ) : ℚ := max (prev - 1/4) (1/2)

/-- Embedding of handleFitToWidth: the container client width minus 100
over the unscaled canvas width, set as the new scale with no clamping. -/
def handleFitToWidth (clientWidth canvasWidth scale : ℚ) : ℚ :=
  (clientWidth - 100) / (canvasWidth / scale)

/-- Embedding of handleFitToScreen: the smaller of the width and height
fit ratios, set as the new scale with no clamping. -/
def handleFitToScreen (clientWidth clientHeight canvasWidth canvasHeight scale : ℚ) : ℚ :=
  min ((clientWidth - 100) / (canvasWidth / scale))
    ((clientHeight - 100) / (canvasHeight / scale))

/-- A screen-space rectangle produced by the point-to-pixel conversion. -/
structure ScreenRect where
  x : ℚ
  y : ℚ
  width : ℚ
  height : ℚ
deriving DecidableEq, Repr

/-- Embedding of convertPdfToScreenCoords: each coordinate divided by the
stored page size and multiplied by the canvas size, with the width and
height floored at 30 and 15 pixels. -/
def convertPdfToScreenCoords (t : TextItem) (canvasWidth canvasHeight : ℚ) : ScreenRect :=
  { x := t.x / t.pageWidth * canvasWidth,
    y := t.y / t.pageHeight * canvasHeight,
    width := max (t.width / t.pageWidth * canvasWidth) 30,
    height := max (t.height / t.pageHeight * canvasHeight) 15 }

/-- Modelled from the spec: pixelToFraction divides a surface pixel
coordinate by the rendered surface extent in pixels. The source has no
pixel-to-fraction conversion (its only would-be consumer, the mark
model, stores raw pixels); this definition follows the words of the
spec. -/
def pixelToFractionX (px renderedWidthPx : ℚ) : ℚ := px / renderedWidthPx

/-- Modelled from the spec: the inverse fraction-to-pixel conversion used
for replay, multiplying a page-relative fraction by the rendered surface
extent in pixels. -/
def fractionToPixelX (fx renderedWidthPx : ℚ) : ℚ := fx * renderedWidthPx

/-- A dropped file as the drop handler inspects it: MIME type, byte size
and name. -/
structure DroppedFile where
  mimeType : String
  size : Nat
  name : String
deriving DecidableEq, Repr

/-- The session state atoms the drop handler may touch: the current file,
the opaque document handle, the page position, the zoom scale, the run
collection and the mark collection. -/
structure PdfEditorState where
  file : Option DroppedFile
  pdfDoc : Option Nat
  currentPage : Nat
  totalPages : Nat
  scale : ℚ
  textItems : List TextItem
  annots : List AnnotMark
deriving DecidableEq, Repr

/-- Embedding of onDrop: an empty acceptance list does nothing; otherwise
the first file is rejected before any parsing when its MIME type is not
application/pdf or its size exceeds 50 times 1024 times 1024 bytes, and
accepted otherwise, recording the file and starting the load. The boolean
records whether loadPdf (parsing) was invoked. -/
def onDrop (accepted : List DroppedFile) (st : PdfEditorState) : PdfEditorState × Bool :=
  match accepted with
  | [] => (st, false)
  | pdfFile :: _ =>
    if pdfFile.mimeType ≠ "application/pdf" then (st, false)
    else if 50 * 1024 * 1024 < pdfFile.size then (st, false)
    else ({ st with file := some pdfFile }, true)

/-- A sample extracted run, used by concrete witnesses. -/
def itemA : TextItem :=
  { id := "t1", text := "Hello", x := 10, y := 20, width := 50, height := 14,
    fontSize := 14, fontName := "Helvetica", color := { r := 0, g := 0, b := 0 },
    rotation := 0, pageIndex := 0, pageWidth := 612, pageHeight := 792 }

/-- A second sample run on the same page, with a box overlapping itemA. -/
def itemB : TextItem := { itemA with id := "t2", text := "World", x := 40 }

/-- The run itemA after its text is replaced by Hi. -/
def itemA2 : TextItem := { itemA with text := "Hi" }

/-- Claim C3: for every run and every replacement string, the update
operation changes only the text field of the matching run; every
geometric and identity field is identical before and after, and a run
with a different id is entirely unchanged. -/
theorem updateTextItem_frame (id newText : String) (items : List TextItem) (i : Nat)
    (before after : TextItem)
    (hb : items[i]? = some before)
    (ha : (updateTextItem id newText items)[i]? = some after) :
    after.id = before.id ∧ after.x = before.x ∧ after.y = before.y ∧
    after.width = before.width ∧ after.height = before.height ∧
    after.fontSize = before.fontSize ∧ after.fontName = before.fontName ∧
    after.color = before.color ∧ after.rotation = before.rotation ∧
    after.pageIndex = before.pageIndex ∧ after.pageWidth = before.pageWidth ∧
    after.pageHeight = before.pageHeight ∧
    (before.id ≠ id → after = before) ∧
    (before.id = id → after = { before with text := newText }) := by
  have hmap : (updateTextItem id newText items)[i]? =
      (items[i]?).map (fun item => if item.id = id then { item with text := newText } else item) := by
    simp [updateTextItem]
  rw [hb, ha] at hmap
  have hafter : after = if before.id = id then { before with text := newText } else before := by
    simpa using hmap
  by_cases h : before.id = id
  · subst hafter
    simp [h]
  · subst hafter
    simp [h]

/-- Witness for claim C3 at a concrete two-run collection: updating run
t1 keeps every non-text field of the run and leaves run t2 untouched. -/
theorem updateTextItem_frame_w :
    itemA2.x = itemA.x ∧ itemA2.fontSize = itemA.fontSize ∧
    itemA2.color = itemA.color ∧ itemA2.pageIndex = itemA.pageIndex := by
  have h := updateTextItem_frame "t1" "Hi" [itemA, itemB] 0 itemA itemA2
    (by decide) (by decide)
  exact ⟨h.2.1, h.2.2.2.2.2.1, h.2.2.2.2.2.2.2.1, h.2.2.2.2.2.2.2.2.2.1⟩

/-- Counterexample for claim C4: the source update operation has no
failure path, so on an unknown id it silently returns the collection
unchanged, while the operation the spec describes fails with NotFound;
at this concrete input the two disagree, refuting the claim that the
source fails with NotFound. -/
theorem updateTextItem_no_notFound :
    updateTextItem "missing" "abc" [itemA] = [itemA] ∧
    updateTextItemSpec "missing" "abc" [itemA] = Except.error EditorError.notFound ∧
    (Except.ok [itemA] : Except EditorError (List TextItem)) ≠
      Except.error EditorError.notFound := by
  refine ⟨by decide, by rfl, by simp⟩

/-- Claim C4 as amended: an update with an id matching no run is a
silent no-op, with no error signalled and the collection returned
unchanged, so atomicity on an unknown id holds trivially. -/
theorem updateTextItem_unknown_id_noop (id newText : String) (items : List TextItem)
    (h : ∀ t ∈ items, t.id ≠ id) :
    updateTextItem id newText items = items := by
  unfold updateTextItem
  conv_rhs => rw [← List.map_id items]
  refine List.map_congr_left ?_
  intro t ht
  simp [h t ht]

/-- Witness for the amended claim C4 at a concrete collection whose runs
all have ids different from the requested one. -/
theorem updateTextItem_unknown_id_noop_w :
    updateTextItem "missing" "abc" [itemA, itemB] = [itemA, itemB] :=
  updateTextItem_unknown_id_noop "missing" "abc" [itemA, itemB] (by decide)

/-- Claim C2: in the drawing operations the export path issues for a
page, every cover rectangle is issued strictly before every text draw of
that page (so an edited run's glyphs are never erased by a later cover
rectangle even when padded boxes overlap), and every text draw carries a
string that is nonempty after trimming. -/
theorem export_covers_before_text (p : Nat) (hgt : ℚ) (items : List TextItem)
    (i j : Nat) (opi opj : DrawOp)
    (hi : (exportPageOps p hgt items)[i]? = some opi)
    (hj : (exportPageOps p hgt items)[j]? = some opj)
    (hri : isRectOp opi = true)
    (htj : isTextOp opj = true) :
    i < j ∧ jsTrimTruthy (opText opj) = true := by
  set A := (items.filter (fun t => decide (t.pageIndex = p))).map (coverRectOp hgt) with hA
  set B := ((items.filter (fun t => decide (t.pageIndex = p))).filter
      (fun t => jsTrimTruthy t.text)).map (drawTextOp hgt) with hB
  have hops : exportPageOps p hgt items = A ++ B := rfl
  rw [hops] at hi hj
  have hrectA : ∀ op ∈ A, isRectOp op = true := by
    intro op hop
    rcases List.mem_map.mp hop with ⟨t, _, rfl⟩
    rfl
  have htextB : ∀ op ∈ B, isTextOp op = true ∧ jsTrimTruthy (opText op) = true := by
    intro op hop
    rcases List.mem_map.mp hop with ⟨t, ht, rfl⟩
    refine ⟨rfl, ?_⟩
    have hmem := (List.mem_filter.mp ht).2
    simpa [drawTextOp, opText] using hmem
  have hiA : i < A.length := by
    by_contra hle
    push_neg at hle
    rw [List.getElem?_append_right hle] at hi
    have hmem := List.getElem?_mem hi
    have hopi := (htextB opi hmem).1
    cases opi <;> simp [isRectOp, isTextOp] at hri hopi
  have hjB : A.length ≤ j := by
    by_contra hlt
    push_neg at hlt
    rw [List.getElem?_append, if_pos hlt] at hj
    have hmem := List.getElem?_mem hj
    have hopj := hrectA opj hmem
    cases opj <;> simp [isRectOp, isTextOp] at htj hopj
  refine ⟨lt_of_lt_of_le hiA hjB, ?_⟩
  rw [List.getElem?_append_right hjB] at hj
  exact (htextB opj (List.getElem?_mem hj)).2

/-- Witness for claim C2 on a concrete page with two overlapping runs:
the first cover rectangle precedes the first text draw and the drawn
string is nonempty after trimming. -/
theorem export_covers_before_text_w :
    0 < 2 ∧ jsTrimTruthy (opText (drawTextOp 792 itemA)) = true :=
  export_covers_before_text 0 792 [itemA, itemB] 0 2
    (coverRectOp 792 itemA) (drawTextOp 792 itemA) rfl rfl rfl rfl

/-- A native item whose placement matrix has a first scale entry of 1
and a fourth scale entry of 2, separating the font-size rule of the
source from the max rule of the claim. -/
def itemNC5 : NativeTextItem :=
  { str := "Hi", transform := some { a := 1, b := 0, c := 0, d := 2, e := 10, f := 20 },
    width := none, height := none, fontName := none, color := none }

/-- Counterexample for claim C5: on an item whose matrix entries are
a = 1 and d = 2, extraction computes font size 1 (the first nonzero of
the two entries, in order), not the maximum 2 of the two absolute
entries as the claim states. -/
theorem extract_fontSize_not_max :
    (extractItem 1 0 612 792 itemNC5).map TextItem.fontSize = some 1 ∧
    max |(1:ℚ)| |(2:ℚ)| = 2 ∧ (1:ℚ) ≠ 2 := by
  refine ⟨?_, by norm_num, by norm_num⟩
  norm_num [extractItem, itemNC5, jsFontSize, jsOr]
  exact ⟨_, ⟨by simp, rfl⟩, rfl⟩

/-- The run extraction produces from itemNC5 on page 1 at index 0 of a
612 by 792 viewport, used by concrete witnesses. -/
def runC5 : TextItem :=
  { id := "text-1-0", text := "Hi", x := 10, y := 772, width := 6/5, height := 1,
    fontSize := 1, fontName := "Helvetica", color := { r := 0, g := 0, b := 0 },
    rotation := 0, pageIndex := 0, pageWidth := 612, pageHeight := 792 }

/-- Claim C5 as amended: for every extracted run, the font size is the
first nonzero among the absolute a entry, the absolute d entry, the item
height and 12 (in particular the absolute a entry whenever it is
nonzero, rather than the maximum of the two scale entries); the width is
the provided nonzero width or else text length times font size times
0.6; the height is the provided nonzero height or else the font size;
and the color defaults to black when none is supplied. -/
theorem extract_geometry_amended (pageNum idx : Nat) (vw vh : ℚ)
    (item : NativeTextItem) (tr : PlacementMatrix) (run : TextItem)
    (htr : item.transform = some tr)
    (hrun : extractItem pageNum idx vw vh item = some run) :
    run.fontSize = jsFontSize tr item.height ∧
    (tr.a ≠ 0 → run.fontSize = |tr.a|) ∧
    run.width = jsOr item.width ((run.text.length : ℚ) * run.fontSize * (3/5)) ∧
    run.height = jsOr item.height run.fontSize ∧
    run.color = extractColor item.color ∧
    (item.color = none → run.color = { r := 0, g := 0, b := 0 }) := by
  unfold extractItem at hrun
  by_cases hs : item.str = ""
  · simp [hs] at hrun
  · rw [if_neg hs, htr] at hrun
    obtain rfl := Option.some.inj hrun
    refine ⟨rfl, ?_, rfl, rfl, rfl, ?_⟩
    · intro ha
      simp [jsFontSize, jsOr, abs_eq_zero, ha]
    · intro hc
      simp [extractColor, hc]

/-- Witness for the amended claim C5 at the concrete item itemNC5: the
extracted run has font size equal to the absolute a entry 1, fallback
width 6/5, fallback height 1 and the default black color. -/
theorem extract_geometry_amended_w :
    runC5.fontSize = jsFontSize { a := 1, b := 0, c := 0, d := 2, e := 10, f := 20 }
      (none : Option ℚ) ∧
    ((1:ℚ) ≠ 0 → runC5.fontSize = |(1:ℚ)|) ∧
    runC5.width = jsOr (none : Option ℚ) ((runC5.text.length : ℚ) * runC5.fontSize * (3/5)) ∧
    runC5.height = jsOr (none : Option ℚ) runC5.fontSize ∧
    runC5.color = extractColor (none : Option NativeColor) ∧
    ((none : Option NativeColor) = none → runC5.color = { r := 0, g := 0, b := 0 }) := by
  have hrun : extractItem 1 0 612 792 itemNC5 = some runC5 := by
    unfold extractItem itemNC5
    rw [if_neg (by decide)]
    refine congrArg some ?_
    have hlen : ("Hi":String).length = 2 := rfl
    simp only [runC5, jsFontSize, jsOr, jsOrStr, extractColor, TextItem.mk.injEq, hlen]
    norm_num
    decide
  exact extract_geometry_amended 1 0 612 792 itemNC5
    { a := 1, b := 0, c := 0, d := 2, e := 10, f := 20 } runC5 rfl hrun

/-- A native item whose matrix translation places it at x = -5, outside
the horizontal page range. -/
def itemNC6 : NativeTextItem :=
  { str := "A", transform := some { a := 1, b := 0, c := 0, d := 1, e := -5, f := 0 },
    width := none, height := none, fontName := none, color := none }

/-- An item lacking a placement matrix is skipped by extraction. -/
theorem extractItem_eq_none_of_no_transform (pageNum i : Nat) (vw vh : ℚ)
    (item : NativeTextItem) (h : item.transform = none) :
    extractItem pageNum i vw vh item = none := by
  unfold extractItem
  rw [h]
  split <;> rfl

/-- Counterexample for claim C6: the item itemNC6 carries a placement
matrix putting its origin at x = -5, outside the range from 0 to the
page width, yet extraction keeps it rather than dropping it, so an
extracted run can violate the claimed range invariant. -/
theorem extract_keeps_out_of_range :
    (extractItem 1 0 612 792 itemNC6).isSome = true ∧
    (extractItem 1 0 612 792 itemNC6).map TextItem.x = some (-5) ∧
    ¬ (0 ≤ (-5 : ℚ)) := by
  refine ⟨rfl, ?_, by norm_num⟩
  norm_num [extractItem, itemNC6]
  exact ⟨_, ⟨by simp, rfl⟩, rfl⟩

/-- Claim C6 as amended: extraction drops, per item and without failing
the rest of the extraction, exactly the items with an empty string or no
placement matrix; every surviving run comes from an item with a matrix,
and no geometry range check is applied, so a run may carry an origin
outside the page rectangle (see the counterexample). -/
theorem extract_page_amended (pageNum : Nat) (vw vh : ℚ) (native : List NativeTextItem) :
    (∀ run ∈ extractPage pageNum vw vh native,
      ∃ p ∈ native.enum, p.2.str ≠ "" ∧ p.2.transform.isSome = true ∧
        extractItem pageNum p.1 vw vh p.2 = some run) ∧
    (∀ item : NativeTextItem, item.transform = none →
      ∀ i : Nat, extractItem pageNum i vw vh item = none) ∧
    (∀ bad : NativeTextItem, bad.transform = none →
      extractPage pageNum vw vh (native ++ [bad]) = extractPage pageNum vw vh native) := by
  refine ⟨?_, ?_, ?_⟩
  · intro run hrun
    rcases List.mem_filterMap.mp hrun with ⟨p, hp, hex⟩
    refine ⟨p, hp, ?_, ?_, hex⟩
    · intro hs
      simp [extractItem, hs] at hex
    · cases h : p.2.transform with
      | none => rw [extractItem_eq_none_of_no_transform pageNum p.1 vw vh p.2 h] at hex; cases hex
      | some tr => rfl
  · intro item h i
    exact extractItem_eq_none_of_no_transform pageNum i vw vh item h
  · intro bad hbad
    unfold extractPage
    rw [List.enum_append, List.filterMap_append]
    have hsing : ([bad].enumFrom native.length).filterMap
        (fun p => extractItem pageNum p.1 vw vh p.2) = [] := by
      simp [List.enumFrom, extractItem_eq_none_of_no_transform _ _ vw vh bad hbad]
    rw [hsing, List.append_nil]

/-- Witness for the amended claim C6: appending a matrix-less item to a
concrete one-item list leaves the extracted runs unchanged. -/
theorem extract_page_amended_w :
    extractPage 1 612 792 ([itemNC5] ++
        [{ str := "x", transform := none, width := none, height := none,
           fontName := none, color := none }]) =
      extractPage 1 612 792 [itemNC5] :=
  (extract_page_amended 1 612 792 [itemNC5]).2.2
    { str := "x", transform := none, width := none, height := none,
      fontName := none, color := none } rfl

/-- Counterexample for claim C7: a Next navigation on page 3 of a 3-page
document requests the 0-based index 3, which the spec-modelled goToPage
rejects as OutOfRange, but the source navigation clamps and succeeds
with page 3 unchanged; no OutOfRange error is ever signalled. -/
theorem nav_next_no_outOfRange :
    nextPage 3 3 = 3 ∧
    nextPageResult 3 3 = Except.ok 3 ∧
    goToPageSpec 3 3 = Except.error EditorError.outOfRange ∧
    (Except.ok 3 : Except EditorError Nat) ≠ Except.error EditorError.outOfRange := by
  refine ⟨rfl, rfl, ?_, by simp⟩
  rfl

/-- Claim C7 as amended: navigation never signals an error; starting
from a current page inside the range from 1 to the total, the Previous
and Next handlers clamp into that range, a Next on the last page and a
Previous on page 1 leave the page unchanged, the result channel is
always ok, and the sidebar offers exactly the in-range page numbers. -/
theorem navigation_clamps (total cur : Nat) (h1 : 1 ≤ cur) (h2 : cur ≤ total) :
    1 ≤ nextPage total cur ∧ nextPage total cur ≤ total ∧
    1 ≤ prevPage cur ∧ prevPage cur ≤ total ∧
    (cur = total → nextPage total cur = cur) ∧
    (cur = 1 → prevPage cur = cur) ∧
    nextPageResult total cur = Except.ok (nextPage total cur) ∧
    ∀ p ∈ sidebarPages total, 1 ≤ p ∧ p ≤ total := by
  unfold nextPage prevPage nextPageResult sidebarPages
  refine ⟨by omega, by omega, by omega, by omega, by omega, by omega, rfl, ?_⟩
  intro p hp
  rcases List.mem_map.mp hp with ⟨i, hi, rfl⟩
  have := List.mem_range.mp hi
  omega

/-- Witness for the amended claim C7 on a 3-page document currently on
its last page: Next leaves the page unchanged. -/
theorem navigation_clamps_w : nextPage 3 3 = 3 :=
  (navigation_clamps 3 3 (by decide) (by decide)).2.2.2.2.1 rfl

/-- Counterexample for claim C8: fitting to width in a container whose
client width is 50 pixels, with a 300-pixel canvas at scale 3/2, sets
the scale to -1/4 with no clamping, so no fixed strictly positive range
bounds the scale after every scale-changing operation. -/
theorem fitToWidth_negative_scale :
    handleFitToWidth 50 300 (3/2) = -1/4 ∧ ¬ (0 < (-1/4 : ℚ)) := by
  constructor
  · norm_num [handleFitToWidth]
  · norm_num

/-- Claim C8 as amended: the zoom button handlers do clamp, keeping any
scale already inside the range from 1/2 to 3 inside that range, but the
two fit operations assign their computed ratio unclamped and may leave
the range (see the counterexample). -/
theorem zoom_buttons_clamped (s : ℚ) (h1 : 1/2 ≤ s) (h2 : s ≤ 3) :
    1/2 ≤ handleZoomIn s ∧ handleZoomIn s ≤ 3 ∧
    1/2 ≤ handleZoomOut s ∧ handleZoomOut s ≤ 3 := by
  unfold handleZoomIn handleZoomOut
  exact ⟨le_min (by linarith) (by norm_num), min_le_right _ _,
    le_max_right _ _, max_le (by linarith) (by norm_num)⟩

/-- Witness for the amended claim C8 at scale 1: both zoom buttons keep
the scale inside the range from 1/2 to 3. -/
theorem zoom_buttons_clamped_w :
    1/2 ≤ handleZoomIn 1 ∧ handleZoomIn 1 ≤ 3 ∧
    1/2 ≤ handleZoomOut 1 ∧ handleZoomOut 1 ≤ 3 :=
  zoom_buttons_clamped 1 (by norm_num) (by norm_num)

/-- Claim C9: with a positive page size and a scale in the supported
zoom range, converting a rendering-surface pixel coordinate to a
page-relative fraction and back returns it exactly, hence within
floating-point tolerance, and the source point-to-pixel conversion
factors through the same fraction arithmetic: its screen coordinates
are the point coordinates times the scale. -/
theorem coordinate_round_trip (t : TextItem) (px scale : ℚ)
    (hw : 0 < t.pageWidth) (hh : 0 < t.pageHeight)
    (hs1 : 1/2 ≤ scale) (_hs3 : scale ≤ 3) :
    fractionToPixelX (pixelToFractionX px (t.pageWidth * scale)) (t.pageWidth * scale) = px ∧
    pixelToFractionX (fractionToPixelX px (t.pageWidth * scale)) (t.pageWidth * scale) = px ∧
    (convertPdfToScreenCoords t (t.pageWidth * scale) (t.pageHeight * scale)).x = t.x * scale ∧
    (convertPdfToScreenCoords t (t.pageWidth * scale) (t.pageHeight * scale)).y = t.y * scale := by
  have hsp : 0 < scale := by linarith
  have hw0 : t.pageWidth ≠ 0 := ne_of_gt hw
  have hh0 : t.pageHeight ≠ 0 := ne_of_gt hh
  have hs0 : scale ≠ 0 := ne_of_gt hsp
  unfold fractionToPixelX pixelToFractionX convertPdfToScreenCoords
  refine ⟨by field_simp, by field_simp, ?_, ?_⟩
  · field_simp
    ring
  · field_simp
    ring

/-- Witness for claim C9 at the concrete run itemA, pixel coordinate 7
and scale 2. -/
theorem coordinate_round_trip_w :
    fractionToPixelX (pixelToFractionX 7 (itemA.pageWidth * 2)) (itemA.pageWidth * 2) = 7 ∧
    pixelToFractionX (fractionToPixelX 7 (itemA.pageWidth * 2)) (itemA.pageWidth * 2) = 7 ∧
    (convertPdfToScreenCoords itemA (itemA.pageWidth * 2) (itemA.pageHeight * 2)).x =
      itemA.x * 2 ∧
    (convertPdfToScreenCoords itemA (itemA.pageWidth * 2) (itemA.pageHeight * 2)).y =
      itemA.y * 2 :=
  coordinate_round_trip itemA 7 2 (by norm_num [itemA]) (by norm_num [itemA])
    (by norm_num) (by norm_num)

/-- A dropped file with a non-PDF MIME type, used by witnesses. -/
def fileBad : DroppedFile := { mimeType := "text/plain", size := 10, name := "a.txt" }

/-- An initial editor session state, used by witnesses. -/
def st0 : PdfEditorState :=
  { file := none, pdfDoc := none, currentPage := 1, totalPages := 0,
    scale := 3/2, textItems := [], annots := [] }

/-- Claim C10: a dropped file whose MIME type is not application/pdf or
whose size exceeds 50 times 1024 times 1024 bytes is rejected with no
parsing started and the whole session state exactly as it was. -/
theorem onDrop_rejects_before_parse (f : DroppedFile) (st : PdfEditorState)
    (h : f.mimeType ≠ "application/pdf" ∨ 50 * 1024 * 1024 < f.size) :
    onDrop [f] st = (st, false) ∧
    (onDrop [f] st).1.file = st.file ∧ (onDrop [f] st).1.pdfDoc = st.pdfDoc ∧
    (onDrop [f] st).1.textItems = st.textItems ∧ (onDrop [f] st).1.annots = st.annots ∧
    (onDrop [f] st).2 = false := by
  have hmain : onDrop [f] st = (st, false) := by
    show (if f.mimeType ≠ "application/pdf" then (st, false)
      else if 50 * 1024 * 1024 < f.size then (st, false)
      else ({ st with file := some f }, true)) = (st, false)
    rcases h with h | h
    · rw [if_pos h]
    · by_cases hm : f.mimeType ≠ "application/pdf"
      · rw [if_pos hm]
      · rw [if_neg hm, if_pos h]
  rw [hmain]
  exact ⟨rfl, rfl, rfl, rfl, rfl, rfl⟩

/-- Witness for claim C10: dropping a plain-text file on the initial
session leaves the session unchanged and starts no parse. -/
theorem onDrop_rejects_before_parse_w : onDrop [fileBad] st0 = (st0, false) :=
  (onDrop_rejects_before_parse fileBad st0 (Or.inl (by decide))).1

/-- Claim C1 evaluated at its failing input (the source stores mark
points in raw canvas pixels, the spec names this the defect its
fractional storage corrects): the start handler records the raw pixel
point (100, 100), not the page-relative fraction 1/2 of a 200-pixel
surface; the move handler appends raw pixels likewise; and the stored
raw coordinate read back as a fraction of the rendered width gives 1/2
at scale 1 but 1/4 at scale 2, so the stored position is not
scale-independent. -/
theorem annot_raw_pixel_storage :
    (handleAnnotStart AnnotTool.rectangle 100 100 0 0 5 1).map AnnotMark.path =
      some [{ x := 100, y := 100 }] ∧
    (handleAnnotMove
        { id := "annotation-5", kind := AnnotKind.rectangle,
          path := [{ x := 100, y := 100 }], color := "#ff0000", pageIndex := 0 }
        150 150 0 0).path =
      [{ x := 100, y := 100 }, { x := 150, y := 150 }] ∧
    (100 : ℚ) ≠ pixelToFractionX 100 (200 * 1) ∧
    pixelToFractionX 100 (200 * 1) ≠ pixelToFractionX 100 (200 * 2) := by
  refine ⟨?_, ?_, ?_, ?_⟩
  · norm_num [handleAnnotStart]
    exact ⟨_, ⟨by decide, rfl⟩, rfl⟩
  · norm_num [handleAnnotMove]
  · norm_num [pixelToFractionX]
  · norm_num [pixelToFractionX]

end PdfEdit
